import Mathlib

set_option maxRecDepth 16384

/-!
Shallow embedding of `nautobot_golden_config/utilities/helper.py`.

External collaborators (the Django ORM / Device Directory, the Group
Membership Resolver, jinja2, the GraphQL executor, the Secret Store and the
Authorization Oracle) are modelled as explicit data or function-valued
environment fields; the control flow of every helper function is translated
line by line from the source.
-/

namespace GoldenCfg

/-! ## Data model

`GoldenConfigSetting` carries the precedence `weight`; `sid` stands for the
database identity of the settings row (used only to tell settings objects
apart).  `MemberGroup` models one entry of `device.dynamic_groups`: a
DynamicGroup together with its optional one-to-one `golden_config_setting`.
-/

structure GoldenConfigSetting where
  sid : Nat
  weight : Nat
deriving DecidableEq, Repr

structure MemberGroup where
  gid : Nat
  golden_config_setting : Option GoldenConfigSetting
deriving DecidableEq, Repr

structure Device where
  id : Nat
  name : String
  platform : Option String
  dynamic_groups : List MemberGroup
deriving DecidableEq, Repr

/-! ## Device Settings Resolver (`get_device_to_settings_map`)

Source:
    for device in queryset:
        dynamic_group = device.dynamic_groups.exclude(
            golden_config_setting__isnull=True).order_by(
            "-golden_config_setting__weight")
        if dynamic_group.exists():
            device_to_settings_map[device.id] = dynamic_group.first().golden_config_setting

The Django dict is modelled as an association list built device by device;
`order_by("-...weight")` is modelled as a stable insertion sort on weight,
descending (ties keep their database order, which Django leaves unspecified).
-/

/-- Weight used by `order_by("-golden_config_setting__weight")`; only ever
read on groups whose setting is present. -/
def groupWeight (g : MemberGroup) : Nat :=
  match g.golden_config_setting with
  | some s => s.weight
  | none => 0

/-- Source: `device.dynamic_groups.exclude(golden_config_setting__isnull=True)`. -/
def qualifyingGroups (d : Device) : List MemberGroup :=
  d.dynamic_groups.filter (fun g => g.golden_config_setting.isSome)

/-- Insert into a weight-descending list, after all elements of `≥` weight
(stable). -/
def insertWeightDesc (g : MemberGroup) : List MemberGroup → List MemberGroup
  | [] => [g]
  | h :: t => if groupWeight h < groupWeight g then g :: h :: t else h :: insertWeightDesc g t

/-- Source: `order_by("-golden_config_setting__weight")`: stable sort, weight
descending. -/
def orderByWeightDesc : List MemberGroup → List MemberGroup
  | [] => []
  | h :: t => insertWeightDesc h (orderByWeightDesc t)

/-- The entry contributed by one device: `if dynamic_group.exists()` then
`first().golden_config_setting` keyed by `device.id` (`head?` is `none`
exactly when the ordered queryset is empty). -/
def deviceEntry (device : Device) : Option (Nat × GoldenConfigSetting) :=
  (orderByWeightDesc (qualifyingGroups device)).head?.bind
    (fun g => g.golden_config_setting.map (fun s => (device.id, s)))

/-- Source: `get_device_to_settings_map(queryset)`. -/
def get_device_to_settings_map (queryset : List Device) : List (Nat × GoldenConfigSetting) :=
  queryset.filterMap deviceEntry

/-- Dictionary lookup `device_to_settings_map[did]`, as `Option`. -/
def lookupSettings (m : List (Nat × GoldenConfigSetting)) (did : Nat) :
    Option GoldenConfigSetting :=
  (m.find? (fun p => p.1 == did)).map (fun p => p.2)

theorem mem_insertWeightDesc (a g : MemberGroup) (l : List MemberGroup) :
    a ∈ insertWeightDesc g l ↔ a = g ∨ a ∈ l := by
  induction l with
  | nil => simp [insertWeightDesc]
  | cons h t ih =>
    by_cases hw : groupWeight h < groupWeight g
    · simp [insertWeightDesc, hw]
    · simp [insertWeightDesc, hw, ih]
      tauto

theorem mem_orderByWeightDesc (a : MemberGroup) (l : List MemberGroup) :
    a ∈ orderByWeightDesc l ↔ a ∈ l := by
  induction l with
  | nil => simp [orderByWeightDesc]
  | cons h t ih =>
    simp [orderByWeightDesc, mem_insertWeightDesc, ih]

theorem pairwise_insertWeightDesc (g : MemberGroup) (l : List MemberGroup)
    (hl : l.Pairwise (fun a b => groupWeight b ≤ groupWeight a)) :
    (insertWeightDesc g l).Pairwise (fun a b => groupWeight b ≤ groupWeight a) := by
  induction l with
  | nil => simp [insertWeightDesc]
  | cons h t ih =>
    rcases List.pairwise_cons.mp hl with ⟨hhead, htail⟩
    by_cases hw : groupWeight h < groupWeight g
    · rw [insertWeightDesc, if_pos hw]
      refine List.pairwise_cons.mpr ⟨?_, hl⟩
      intro b hb
      rcases List.mem_cons.mp hb with rfl | hb
      · exact Nat.le_of_lt hw
      · exact Nat.le_trans (hhead b hb) (Nat.le_of_lt hw)
    · rw [insertWeightDesc, if_neg hw]
      refine List.pairwise_cons.mpr ⟨?_, ih htail⟩
      intro b hb
      rcases (mem_insertWeightDesc b g t).mp hb with rfl | hb
      · exact Nat.le_of_not_lt hw
      · exact hhead b hb

theorem pairwise_orderByWeightDesc (l : List MemberGroup) :
    (orderByWeightDesc l).Pairwise (fun a b => groupWeight b ≤ groupWeight a) := by
  induction l with
  | nil => simp [orderByWeightDesc]
  | cons h t ih => exact pairwise_insertWeightDesc h (orderByWeightDesc t) ih

/-- The head of the weight-descending sort is a maximum-weight element. -/
theorem head_orderByWeightDesc_max (l : List MemberGroup) (g : MemberGroup)
    (rest : List MemberGroup) (h : orderByWeightDesc l = g :: rest) :
    g ∈ l ∧ ∀ a ∈ l, groupWeight a ≤ groupWeight g := by
  constructor
  · exact (mem_orderByWeightDesc g l).mp (h ▸ List.mem_cons_self g rest)
  · intro a ha
    have ha' : a ∈ orderByWeightDesc l := (mem_orderByWeightDesc a l).mpr ha
    rw [h] at ha'
    rcases List.mem_cons.mp ha' with rfl | ha'
    · exact Nat.le_refl _
    · have hp := pairwise_orderByWeightDesc l
      rw [h] at hp
      exact (List.pairwise_cons.mp hp).1 a ha'

/-- A device's map entry, when present, is keyed by that device's id and
holds the setting of the head of the weight-ordered qualifying groups. -/
theorem deviceEntry_some (d : Device) (e : Nat × GoldenConfigSetting)
    (he : deviceEntry d = some e) :
    ∃ g s, (orderByWeightDesc (qualifyingGroups d)).head? = some g ∧
      g.golden_config_setting = some s ∧ e = (d.id, s) := by
  unfold deviceEntry at he
  rcases Option.bind_eq_some.mp he with ⟨g, hg, hmap⟩
  rcases Option.map_eq_some'.mp hmap with ⟨s, hs, hes⟩
  exact ⟨g, s, hg, hs, hes.symm⟩

theorem deviceEntry_key (d : Device) (e : Nat × GoldenConfigSetting)
    (he : deviceEntry d = some e) : e.1 = d.id := by
  rcases deviceEntry_some d e he with ⟨g, s, _, _, rfl⟩
  rfl

/-- Each entry of the map comes from a device of the queryset and carries
that device's id. -/
theorem entry_of_map (qs : List Device) (e : Nat × GoldenConfigSetting)
    (he : e ∈ get_device_to_settings_map qs) :
    ∃ d ∈ qs, deviceEntry d = some e ∧ e.1 = d.id := by
  rcases List.mem_filterMap.mp he with ⟨d, hd, hde⟩
  exact ⟨d, hd, hde, deviceEntry_key d e hde⟩

/-- If `did` is not among the devices' ids, the map built from them has no
entry for it. -/
theorem find?_map_of_not_mem (rest : List Device) (did : Nat)
    (h : did ∉ rest.map Device.id) :
    (get_device_to_settings_map rest).find? (fun p => p.1 == did) = none := by
  apply List.find?_eq_none.mpr
  intro p hp
  rcases entry_of_map rest p hp with ⟨d2, hd2, _, hid⟩
  simp only [beq_iff_eq]
  intro hc
  exact h (hc ▸ hid ▸ List.mem_map_of_mem Device.id hd2)

/-- Lookup in the built map at a queryset device's id evaluates that
device's own entry, provided device ids are unique (they are database
primary keys). -/
theorem lookup_map_eq (qs : List Device) (d : Device)
    (hnd : (qs.map Device.id).Nodup) (hd : d ∈ qs) :
    lookupSettings (get_device_to_settings_map qs) d.id =
      (deviceEntry d).map (fun p => p.2) := by
  induction qs with
  | nil => cases hd
  | cons q rest ih =>
    have hnd' : (rest.map Device.id).Nodup := by
      rw [List.map_cons, List.nodup_cons] at hnd
      exact hnd.2
    have hq : q.id ∉ rest.map Device.id := by
      rw [List.map_cons, List.nodup_cons] at hnd
      exact hnd.1
    rcases List.mem_cons.mp hd with rfl | hd'
    · -- head device is d itself
      rcases he : deviceEntry d with _ | e
      · -- d contributes no entry, and no tail entry can carry d.id
        have hfind := find?_map_of_not_mem rest d.id hq
        simp only [get_device_to_settings_map] at hfind
        simp only [lookupSettings, get_device_to_settings_map, List.filterMap_cons, he]
        rw [hfind]
      · have hkey : (e.1 == d.id) = true := by
          simp [deviceEntry_key d e he]
        simp [lookupSettings, get_device_to_settings_map, List.filterMap_cons, he,
          List.find?, hkey]
    · -- d lives in the tail; the head entry (if any) carries q.id ≠ d.id
      have hdid : d.id ∈ rest.map Device.id := List.mem_map_of_mem Device.id hd'
      have hqd : q.id ≠ d.id := fun hcontra => hq (hcontra ▸ hdid)
      have hih := ih hnd' hd'
      simp only [lookupSettings, get_device_to_settings_map] at hih
      rcases he : deviceEntry q with _ | e
      · simp only [lookupSettings, get_device_to_settings_map, List.filterMap_cons, he]
        exact hih
      · have hkey : (e.1 == d.id) = false := by
          simp [deviceEntry_key q e he, hqd]
        simp only [lookupSettings, get_device_to_settings_map, List.filterMap_cons, he,
          List.find?, hkey]
        exact hih

/-- C1: for every device of the queryset, if it belongs to at least one
group with a settings object attached, `get_device_to_settings_map` assigns
its id to the settings object of a maximal-weight such group; devices with
no such group are absent from the mapping.  Device ids are database primary
keys, hence pairwise distinct in the queryset. -/
theorem C1_device_settings_resolver (qs : List Device) (d : Device)
    (hnd : (qs.map Device.id).Nodup) (hd : d ∈ qs) :
    (qualifyingGroups d = [] →
      lookupSettings (get_device_to_settings_map qs) d.id = none) ∧
    (qualifyingGroups d ≠ [] →
      ∃ g ∈ qualifyingGroups d,
        lookupSettings (get_device_to_settings_map qs) d.id = g.golden_config_setting ∧
        ∀ g' ∈ qualifyingGroups d, groupWeight g' ≤ groupWeight g) := by
  have hlk := lookup_map_eq qs d hnd hd
  constructor
  · intro hnil
    rw [hlk]
    unfold deviceEntry
    rw [hnil]
    rfl
  · intro hne
    rcases ho : orderByWeightDesc (qualifyingGroups d) with _ | ⟨g, rest⟩
    · exact absurd (by
        have := mem_orderByWeightDesc
        rcases hq : qualifyingGroups d with _ | ⟨a, l⟩
        · rfl
        · exact absurd (ho ▸ (mem_orderByWeightDesc a (qualifyingGroups d)).mpr
            (hq ▸ List.mem_cons_self a l)) (List.not_mem_nil a)) hne
    · rcases head_orderByWeightDesc_max (qualifyingGroups d) g rest ho with ⟨hgmem, hgmax⟩
      refine ⟨g, hgmem, ?_, hgmax⟩
      have hqual : g.golden_config_setting.isSome := by
        have := List.of_mem_filter hgmem
        simpa [qualifyingGroups] using this
      rcases hgs : g.golden_config_setting with _ | s
      · rw [hgs] at hqual; cases hqual
      · rw [hlk]
        unfold deviceEntry
        rw [ho]
        simp [hgs]

/-- Concrete witness devices for C1: one device in two settings-bearing
groups of weights 5 and 10. -/
def s5 : GoldenConfigSetting := ⟨1, 5⟩

def s10 : GoldenConfigSetting := ⟨2, 10⟩

def dW : Device := ⟨7, "dev7", some "ios", [⟨1, some s5⟩, ⟨2, some s10⟩]⟩

/-- Witness for C1 at a concrete queryset, checking in particular that with
qualifying groups of weights 5 and 10 the weight-10 settings object is
chosen. -/
theorem C1_device_settings_resolver_witness :
    (([dW].map Device.id).Nodup ∧ dW ∈ [dW]) ∧
    ((qualifyingGroups dW = [] →
        lookupSettings (get_device_to_settings_map [dW]) dW.id = none) ∧
      (qualifyingGroups dW ≠ [] →
        ∃ g ∈ qualifyingGroups dW,
          lookupSettings (get_device_to_settings_map [dW]) dW.id = g.golden_config_setting ∧
          ∀ g' ∈ qualifyingGroups dW, groupWeight g' ≤ groupWeight g)) ∧
    lookupSettings (get_device_to_settings_map [dW]) dW.id = some s10 :=
  ⟨⟨by decide, by decide⟩,
   C1_device_settings_resolver [dW] dW (by decide) (by decide),
   by decide⟩

/-! ## Permission-Gated Secret Resolver (`get_secret_by_secret_group_slug`)

The Authorization Oracle (`permission_is_exempt`, `user.get_all_permissions`)
and the Secret Store (`SecretsGroup.get_secret_value`) are external; they
are modelled as function fields.  Exceptions (Django `DoesNotExist` from
`.objects.get`, Secret Store failures) are the `Except.error` branch. -/

inductive SecretExc where
  | doesNotExist
  | secretError (msg : String)
deriving DecidableEq, Repr

structure UserM where
  is_superuser : Bool
  is_authenticated : Bool
  /-- the result of `user.get_all_permissions()` -/
  permissions : List String
deriving DecidableEq, Repr

structure SecretsGroupM where
  slug : String
  /-- Source: `get_secret_value(access_type, secret_type)`: the Secret Store call,
  which returns the secret's value or fails. -/
  get_secret_value : String → String → Except SecretExc String

structure AuthEnv where
  /-- the Authorization Oracle's global exemption predicate -/
  permission_is_exempt : String → Bool
  /-- Source: `SecretsGroup.objects` -/
  secrets_groups : List SecretsGroupM

/-- Source: `SecretsGroup.objects.get(slug=...)`: raises `DoesNotExist` when no
group matches (the helper's docstring assumes at most one matches). -/
def sgObjectsGet (store : List SecretsGroupM) (slug : String) :
    Except SecretExc SecretsGroupM :=
  match store.find? (fun g => g.slug == slug) with
  | some g => Except.ok g
  | none => Except.error SecretExc.doesNotExist

/-- Python truthiness of a Django model instance: always `True` (the class
defines no `__bool__`/`__len__`). -/
def sgTruthy (_sg : SecretsGroupM) : Bool := true

/-- The code past the permission gate: `SecretsGroup.objects.get`, the
`if secrets_group:` guard, `get_secret_value`, and the final
`return None`. -/
def secretLookup (env : AuthEnv) (secrets_group_slug secret_type secret_access_type : String) :
    Except SecretExc (Option String) :=
  match sgObjectsGet env.secrets_groups secrets_group_slug with
  | Except.error e => Except.error e
  | Except.ok sg =>
    if sgTruthy sg then
      match sg.get_secret_value secret_access_type secret_type with
      | Except.ok v => Except.ok (some v)
      | Except.error e => Except.error e
    else
      Except.ok none

/-- Source: `get_secret_by_secret_group_slug(user, secrets_group_slug, secret_type,
secret_access_type)`.  The source binds the permission name to a local
variable `permission_secrets_group = "extras.view_secretsgroup"`; it is
inlined here. -/
def get_secret_by_secret_group_slug (env : AuthEnv) (user : UserM)
    (secrets_group_slug secret_type secret_access_type : String) :
    Except SecretExc (Option String) :=
  if user.is_superuser || env.permission_is_exempt "extras.view_secretsgroup" then
    secretLookup env secrets_group_slug secret_type secret_access_type
  else if (!user.is_authenticated) || (!(user.permissions.contains "extras.view_secretsgroup")) then
    Except.ok (some ("You have no permission to read this secret " ++ secrets_group_slug ++ "."))
  else
    secretLookup env secrets_group_slug secret_type secret_access_type

/-- C2: a non-superuser principal in a non-exempt context that is
unauthenticated or lacks `extras.view_secretsgroup` gets, without raising,
exactly the denial string naming the secrets-group slug; a superuser always
proceeds to the secret lookup, whatever permissions are held. -/
theorem C2_secret_resolver_permission_gate (env : AuthEnv) (user : UserM)
    (slug secret_type secret_access_type : String) :
    (user.is_superuser = false →
      env.permission_is_exempt "extras.view_secretsgroup" = false →
      (user.is_authenticated = false ∨
        user.permissions.contains "extras.view_secretsgroup" = false) →
      get_secret_by_secret_group_slug env user slug secret_type secret_access_type =
        Except.ok (some ("You have no permission to read this secret " ++ slug ++ "."))) ∧
    (user.is_superuser = true →
      get_secret_by_secret_group_slug env user slug secret_type secret_access_type =
        secretLookup env slug secret_type secret_access_type) := by
  constructor
  · intro hsu hex hdeny
    have hgate : (user.is_superuser || env.permission_is_exempt "extras.view_secretsgroup") = false := by
      simp [hsu, hex]
    have hdeny' : ((!user.is_authenticated) || (!(user.permissions.contains "extras.view_secretsgroup"))) = true := by
      rcases hdeny with h | h
      · rw [h]
        rfl
      · rw [h]
        simp
    unfold get_secret_by_secret_group_slug
    rw [hgate, hdeny']
    simp
  · intro hsu
    unfold get_secret_by_secret_group_slug
    simp [hsu]

/-- Witness environment for C2/C10: one secrets group "sg1" whose generic
secret resolves to "supersecretvalue"; no exempt context. -/
def envSg1 : AuthEnv :=
  ⟨fun _ => false, [⟨"sg1", fun _ _ => Except.ok "supersecretvalue"⟩]⟩

def plainUser : UserM := ⟨false, true, []⟩

def superUser : UserM := ⟨true, true, []⟩

/-- Witness for C2: the plain authenticated user without the capability gets
the denial string; the superuser's call proceeds to the lookup (and indeed
yields the stored secret value). -/
theorem C2_secret_resolver_permission_gate_witness :
    (get_secret_by_secret_group_slug envSg1 plainUser "sg1" "secret" "Generic" =
      Except.ok (some "You have no permission to read this secret sg1.")) ∧
    (get_secret_by_secret_group_slug envSg1 superUser "sg1" "secret" "Generic" =
      secretLookup envSg1 "sg1" "secret" "Generic") ∧
    secretLookup envSg1 "sg1" "secret" "Generic" = Except.ok (some "supersecretvalue") :=
  ⟨(C2_secret_resolver_permission_gate envSg1 plainUser "sg1" "secret" "Generic").1
      rfl rfl (Or.inr rfl),
   (C2_secret_resolver_permission_gate envSg1 superUser "sg1" "secret" "Generic").2 rfl,
   rfl⟩

/-- C10: no call of `get_secret_by_secret_group_slug` ever returns `None`:
the denial branch returns a string, and past the gate the call either
propagates an exception or returns the Secret Store's value — the
`if secrets_group:` guard is constantly true (a model instance is truthy),
so the final `return None` is unreachable. -/
theorem C10_return_none_unreachable (env : AuthEnv) (user : UserM)
    (slug secret_type secret_access_type : String) :
    (get_secret_by_secret_group_slug env user slug secret_type secret_access_type ≠
      Except.ok none) ∧
    (∀ sg : SecretsGroupM, sgTruthy sg = true) ∧
    ((user.is_superuser = true ∨
        env.permission_is_exempt "extras.view_secretsgroup" = true ∨
        (user.is_authenticated = true ∧
          user.permissions.contains "extras.view_secretsgroup" = true)) →
      get_secret_by_secret_group_slug env user slug secret_type secret_access_type =
        secretLookup env slug secret_type secret_access_type) := by
  have hlk : secretLookup env slug secret_type secret_access_type ≠ Except.ok none := by
    unfold secretLookup
    rcases sgObjectsGet env.secrets_groups slug with e | sg
    · simp
    · simp only [sgTruthy, if_true]
      rcases sg.get_secret_value secret_access_type secret_type with e | v <;> simp
  refine ⟨?_, fun _ => rfl, ?_⟩
  · unfold get_secret_by_secret_group_slug
    cases hgate : (user.is_superuser || env.permission_is_exempt "extras.view_secretsgroup") with
    | true => simpa using hlk
    | false =>
      cases hdeny : ((!user.is_authenticated) || (!(user.permissions.contains "extras.view_secretsgroup"))) with
      | true => simp
      | false => simpa using hlk
  · intro hpass
    have hgate2 : (user.is_superuser || env.permission_is_exempt "extras.view_secretsgroup") = true ∨
        ((!user.is_authenticated) || (!(user.permissions.contains "extras.view_secretsgroup"))) = false := by
      rcases hpass with h | h | ⟨ha, hp⟩
      · exact Or.inl (by simp [h])
      · exact Or.inl (by simp [h])
      · exact Or.inr (by rw [ha, hp]; rfl)
    unfold get_secret_by_secret_group_slug
    rcases hgate2 with h | h
    · rw [h]
      simp
    · cases hgate : (user.is_superuser || env.permission_is_exempt "extras.view_secretsgroup") with
      | true => simp
      | false =>
        rw [h]
        simp

/-- Witness for C10 at concrete inputs. -/
theorem C10_return_none_unreachable_witness :
    (get_secret_by_secret_group_slug envSg1 plainUser "sg1" "secret" "Generic" ≠
      Except.ok none) ∧
    (get_secret_by_secret_group_slug envSg1 superUser "sg1" "secret" "Generic" =
      secretLookup envSg1 "sg1" "secret" "Generic") :=
  ⟨(C10_return_none_unreachable envSg1 plainUser "sg1" "secret" "Generic").1,
   (C10_return_none_unreachable envSg1 superUser "sg1" "secret" "Generic").2.2
     (Or.inl rfl)⟩

/-! ## Scope Query Builder (`get_job_filter`)

`GoldenConfigSetting.objects` rows are modelled with their DynamicGroup's
stored `filter` string and the device predicate that
`dynamic_group.generate_query()` evaluates to (the external Group
Membership Resolver).  A Django `Q()` with no constraint matches all
devices, and OR-combining an empty `Q()` with a predicate yields that
predicate; `raw_qs` is therefore an `Option` predicate, `none` standing for
the empty `Q()`.  The job parameters (`data` translated through `FIELDS`,
`tag` and `device` into a `DeviceFilterSet`) act on the base queryset as a
conjunctive device predicate, modelled as `query`.  The three
`NornirNautobotException`s are told apart by their message strings, as in
the source. -/

structure ScopeGroup where
  /-- the stored filter expression (`dynamic_group.filter`) -/
  filter : String
  /-- Source: `dynamic_group.generate_query()` evaluated by the Device Directory -/
  query : Device → Bool

structure ScopeSetting where
  dynamic_group : ScopeGroup

structure ScopeEnv where
  /-- Source: `GoldenConfigSetting.objects.all()` -/
  settings : List ScopeSetting
  /-- Source: `Device.objects` -/
  devices : List Device

/-- Source: `GoldenConfigSetting.objects.filter(dynamic_group__filter__iexact="\x7b\x7d").exists()`.
`iexact` compares case-insensitively, but the pattern `\x7b\x7d` contains no
cased character, so a string is `iexact`-equal to it exactly when it is
equal to it. -/
def hasTrivialScope (env : ScopeEnv) : Bool :=
  env.settings.any (fun s => s.dynamic_group.filter == "\x7b\x7d")

/-- Django OR-combination of a `Q` accumulator with a predicate: combining
with the empty `Q()` returns the other operand. -/
def qOrCombine (acc : Option (Device → Bool)) (p : Device → Bool) :
    Option (Device → Bool) :=
  match acc with
  | none => some p
  | some q => some (fun d => q d || p d)

/-- The `raw_qs` accumulator: `Q()` (i.e. `none`) when some settings object
has the trivial filter, otherwise the OR of every settings object's
generated query (still `Q()` when no settings object exists). -/
def raw_qs (env : ScopeEnv) : Option (Device → Bool) :=
  if hasTrivialScope env then none
  else env.settings.foldl (fun acc s => qOrCombine acc s.dynamic_group.query) none

/-- Source: `Device.objects.filter(q)`: the empty `Q()` imposes no constraint. -/
def qsFilter (q : Option (Device → Bool)) (devices : List Device) : List Device :=
  match q with
  | none => devices
  | some p => devices.filter p

/-- Source: `base_qs = Device.objects.filter(raw_qs)`. -/
def base_qs (env : ScopeEnv) : List Device :=
  qsFilter (raw_qs env) env.devices

def emptyBaseScopeMsg : String :=
  "The base queryset didn't find any devices. Please check the Golden Config Setting scope."

def noMatchingDevicesMsg : String :=
  "The provided job parameters didn't match any devices detected by the Golden Config scope. Please check the scope defined within Golden Config Settings or select the correct job parameters to correctly match devices."

def missingPlatformMsg (names : List String) : String :=
  "The following device(s) " ++ (String.intercalate ", " names ++ " have no platform defined. Platform is required.")

/-- Source: `get_job_filter(data)`: the three checks, in source order, and the
surviving queryset.  The source binds `base_qs`, `devices_filtered` and
`devices_no_platform` to locals; they are inlined here. -/
def get_job_filter (env : ScopeEnv) (query : Device → Bool) :
    Except String (List Device) :=
  if (base_qs env).isEmpty then
    Except.error emptyBaseScopeMsg
  else if ((base_qs env).filter query).isEmpty then
    Except.error noMatchingDevicesMsg
  else if !(((base_qs env).filter query).filter (fun d => d.platform.isNone)).isEmpty then
    Except.error (missingPlatformMsg
      ((((base_qs env).filter query).filter (fun d => d.platform.isNone)).map Device.name))
  else
    Except.ok ((base_qs env).filter query)

theorem foldl_qOrCombine (l : List ScopeSetting) (p : Device → Bool) :
    l.foldl (fun acc s => qOrCombine acc s.dynamic_group.query) (some p) =
      some (fun d => p d || l.any (fun s => s.dynamic_group.query d)) := by
  induction l generalizing p with
  | nil => simp
  | cons s t ih =>
    rw [List.foldl_cons]
    show List.foldl _ (some (fun d => p d || s.dynamic_group.query d)) t = _
    rw [ih]
    congr 1
    funext d
    simp [List.any_cons, Bool.or_assoc]

theorem isEmpty_eq_nil {α : Type} (l : List α) : l.isEmpty = true ↔ l = [] :=
  List.isEmpty_iff

theorem raw_qs_trivial (env : ScopeEnv) (h : hasTrivialScope env = true) :
    raw_qs env = none := by
  unfold raw_qs
  rw [h]
  simp

theorem raw_qs_not_trivial (env : ScopeEnv) (h : hasTrivialScope env = false) :
    raw_qs env =
      env.settings.foldl (fun acc s => qOrCombine acc s.dynamic_group.query) none := by
  unfold raw_qs
  rw [h]
  simp

/-- A settings object with the trivial filter makes the base queryset the
whole directory. -/
theorem base_qs_trivial (env : ScopeEnv) (h : hasTrivialScope env = true) :
    base_qs env = env.devices := by
  unfold base_qs
  rw [raw_qs_trivial env h]
  rfl

/-- With zero settings objects `raw_qs` stays the empty `Q()`, so the base
queryset is the whole directory as well. -/
theorem base_qs_no_settings (env : ScopeEnv) (h : env.settings = []) :
    base_qs env = env.devices := by
  have htriv : hasTrivialScope env = false := by
    unfold hasTrivialScope
    rw [h]
    rfl
  unfold base_qs
  rw [raw_qs_not_trivial env htriv, h]
  rfl

/-- Without a trivial filter and with at least one settings object, the
base queryset is the union (OR) of the settings objects' generated
queries. -/
theorem base_qs_union (env : ScopeEnv) (htriv : hasTrivialScope env = false)
    (hne : env.settings ≠ []) :
    base_qs env =
      env.devices.filter (fun d => env.settings.any (fun s => s.dynamic_group.query d)) := by
  rcases henv : env.settings with _ | ⟨s0, rest⟩
  · exact absurd henv hne
  · unfold base_qs
    rw [raw_qs_not_trivial env htriv, henv, List.foldl_cons]
    show qsFilter (List.foldl _ (some s0.dynamic_group.query) rest) env.devices = _
    rw [foldl_qOrCombine]
    show env.devices.filter _ = _
    apply List.filter_congr
    intro d _
    simp [List.any_cons]

/-- Concrete scope counterexample objects: a directory with one device and
no settings object at all. -/
def dPlain : Device := ⟨1, "device1", some "ios", []⟩

def envNoSettings : ScopeEnv := ⟨[], [dPlain]⟩

/-- C3, counterexample: with zero configured settings objects no group
filter matches the device, yet the base scope contains it — the base scope
is not the union of the configured groups' filters there. -/
theorem C3_scope_union_counterexample :
    hasTrivialScope envNoSettings = false ∧
    envNoSettings.settings.any (fun s => s.dynamic_group.query dPlain) = false ∧
    base_qs envNoSettings = [dPlain] :=
  ⟨rfl, rfl, rfl⟩

/-- C3 (amended): if some configured settings object's group has the
trivial filter the base scope is all devices; otherwise, when at least one
settings object exists, the base scope is the union (OR) of every
configured group's evaluated filter; with zero settings objects the base
scope is likewise unrestricted. -/
theorem C3_scope_base_query (env : ScopeEnv) :
    (hasTrivialScope env = true → base_qs env = env.devices) ∧
    (env.settings = [] → base_qs env = env.devices) ∧
    (hasTrivialScope env = false → env.settings ≠ [] →
      base_qs env =
        env.devices.filter (fun d => env.settings.any (fun s => s.dynamic_group.query d))) :=
  ⟨base_qs_trivial env, base_qs_no_settings env, base_qs_union env⟩

/-- Scope witness objects: a trivial-filter group, a platform-less device
and a non-trivial platform group. -/
def gAll : ScopeGroup := ⟨"\x7b\x7d", fun _ => true⟩

def dNoPlat : Device := ⟨2, "device2", none, []⟩

def gIos : ScopeGroup := ⟨"filterexpr", fun d => d.platform == some "ios"⟩

def envTrivialScope : ScopeEnv := ⟨[⟨gAll⟩], [dPlain, dNoPlat]⟩

def envIos : ScopeEnv := ⟨[⟨gIos⟩], [dPlain, dNoPlat]⟩

/-- Witness for C3 (amended) at concrete environments. -/
theorem C3_scope_base_query_witness :
    base_qs envTrivialScope = envTrivialScope.devices ∧
    base_qs envNoSettings = envNoSettings.devices ∧
    base_qs envIos =
      envIos.devices.filter (fun d => envIos.settings.any (fun s => s.dynamic_group.query d)) :=
  ⟨(C3_scope_base_query envTrivialScope).1 rfl,
   (C3_scope_base_query envNoSettings).2.1 rfl,
   (C3_scope_base_query envIos).2.2 rfl (List.cons_ne_nil _ _)⟩

theorem string_data_append (s t : String) : (s ++ t).data = s.data ++ t.data :=
  String.data_append s t

/-- The missing-platform message starts with a fixed 24-character run, so
its fifth character is always `f`. -/
theorem missingPlatformMsg_char4 (names : List String) :
    (missingPlatformMsg names).data[4]? = some (Char.ofNat 102) := by
  unfold missingPlatformMsg
  rw [string_data_append, List.getElem?_append_left (by decide)]
  decide

theorem mp_ne_empty (names : List String) :
    missingPlatformMsg names ≠ emptyBaseScopeMsg := by
  intro h
  have h4 : (missingPlatformMsg names).data[4]? = emptyBaseScopeMsg.data[4]? := by rw [h]
  rw [missingPlatformMsg_char4] at h4
  exact absurd h4 (by decide)

theorem mp_ne_noMatching (names : List String) :
    missingPlatformMsg names ≠ noMatchingDevicesMsg := by
  intro h
  have h4 : (missingPlatformMsg names).data[4]? = noMatchingDevicesMsg.data[4]? := by rw [h]
  rw [missingPlatformMsg_char4] at h4
  exact absurd h4 (by decide)

/-- The first failure check, isolated: `get_job_filter` reports the empty
base scope exactly when the base queryset is empty. -/
theorem jobFilter_error_empty_iff (env : ScopeEnv) (query : Device → Bool) :
    get_job_filter env query = Except.error emptyBaseScopeMsg ↔ base_qs env = [] := by
  constructor
  · intro h
    by_contra hne
    have hb : (base_qs env).isEmpty = false := by
      cases hbb : (base_qs env).isEmpty
      · rfl
      · exact absurd ((isEmpty_eq_nil _).mp hbb) hne
    unfold get_job_filter at h
    rw [hb] at h
    cases hf : ((base_qs env).filter query).isEmpty
    · rw [hf] at h
      cases hp : (((base_qs env).filter query).filter (fun d => d.platform.isNone)).isEmpty
      · rw [hp] at h
        simp at h
        exact absurd h (mp_ne_empty _)
      · rw [hp] at h
        simp at h
    · rw [hf] at h
      simp at h
      exact absurd h (by decide)
  · intro h
    have hb : (base_qs env).isEmpty = true := (isEmpty_eq_nil _).mpr h
    unfold get_job_filter
    rw [hb]
    rfl

/-- C4: the three failure conditions of `get_job_filter` fire in source
order — empty base scope first, then no devices after AND-combining the job
parameters, then (only when both earlier checks pass) the missing-platform
failure naming exactly the platform-less matched devices — and the three
error messages are pairwise distinct. -/
theorem C4_scope_failure_order (env : ScopeEnv) (query : Device → Bool) :
    (get_job_filter env query = Except.error emptyBaseScopeMsg ↔ base_qs env = []) ∧
    (base_qs env ≠ [] →
      (get_job_filter env query = Except.error noMatchingDevicesMsg ↔
        (base_qs env).filter query = [])) ∧
    (base_qs env ≠ [] → (base_qs env).filter query ≠ [] →
      (((base_qs env).filter query).filter (fun d => d.platform.isNone) ≠ [] →
        get_job_filter env query =
          Except.error (missingPlatformMsg
            ((((base_qs env).filter query).filter (fun d => d.platform.isNone)).map Device.name))) ∧
      (((base_qs env).filter query).filter (fun d => d.platform.isNone) = [] →
        get_job_filter env query = Except.ok ((base_qs env).filter query))) ∧
    (emptyBaseScopeMsg ≠ noMatchingDevicesMsg ∧
      ∀ names, missingPlatformMsg names ≠ emptyBaseScopeMsg ∧
        missingPlatformMsg names ≠ noMatchingDevicesMsg) := by
  refine ⟨jobFilter_error_empty_iff env query, ?_, ?_,
    by decide, fun names => ⟨mp_ne_empty names, mp_ne_noMatching names⟩⟩
  · intro hbne
    have hb : (base_qs env).isEmpty = false := by
      cases hbb : (base_qs env).isEmpty
      · rfl
      · exact absurd ((isEmpty_eq_nil _).mp hbb) hbne
    constructor
    · intro h
      unfold get_job_filter at h
      rw [hb] at h
      cases hf : ((base_qs env).filter query).isEmpty
      · rw [hf] at h
        cases hp : (((base_qs env).filter query).filter (fun d => d.platform.isNone)).isEmpty
        · rw [hp] at h
          simp at h
          exact absurd h (mp_ne_noMatching _)
        · rw [hp] at h
          simp at h
      · exact (isEmpty_eq_nil _).mp hf
    · intro h
      have hf : ((base_qs env).filter query).isEmpty = true := (isEmpty_eq_nil _).mpr h
      unfold get_job_filter
      rw [hb, hf]
      rfl
  · intro hbne hfne
    have hb : (base_qs env).isEmpty = false := by
      cases hbb : (base_qs env).isEmpty
      · rfl
      · exact absurd ((isEmpty_eq_nil _).mp hbb) hbne
    have hf : ((base_qs env).filter query).isEmpty = false := by
      cases hff : ((base_qs env).filter query).isEmpty
      · rfl
      · exact absurd ((isEmpty_eq_nil _).mp hff) hfne
    constructor
    · intro hpne
      have hp : (((base_qs env).filter query).filter (fun d => d.platform.isNone)).isEmpty = false := by
        cases hpp : (((base_qs env).filter query).filter (fun d => d.platform.isNone)).isEmpty
        · rfl
        · exact absurd ((isEmpty_eq_nil _).mp hpp) hpne
      unfold get_job_filter
      rw [hb, hf, hp]
      rfl
    · intro hpeq
      have hp : (((base_qs env).filter query).filter (fun d => d.platform.isNone)).isEmpty = true :=
        (isEmpty_eq_nil _).mpr hpeq
      unfold get_job_filter
      rw [hb, hf, hp]
      rfl

def allQ : Device → Bool := fun _ => true

def envMix : ScopeEnv := ⟨[⟨gAll⟩], [dPlain, dNoPlat]⟩

/-- Witness for C4 at a concrete environment with one platform-less
device. -/
theorem C4_scope_failure_order_witness :
    get_job_filter envMix allQ = Except.error (missingPlatformMsg ["device2"]) ∧
    (get_job_filter envMix allQ = Except.error noMatchingDevicesMsg ↔
      (base_qs envMix).filter allQ = []) :=
  ⟨((C4_scope_failure_order envMix allQ).2.2.1 (by decide) (by decide)).1 (by decide),
   (C4_scope_failure_order envMix allQ).2.1 (by decide)⟩

/-- C5, counterexample: with zero settings objects configured and one
device in the directory, `get_job_filter` does not raise `EmptyBaseScope`
(nor anything else) — the empty `Q()` matches all devices and the call
succeeds. -/
theorem C5_zero_settings_counterexample :
    envNoSettings.settings = [] ∧
    get_job_filter envNoSettings allQ = Except.ok [dPlain] :=
  ⟨rfl, rfl⟩

/-- C5 (amended): when zero settings objects exist the base scope is the
whole directory (the empty OR imposes no constraint), so `get_job_filter`
raises `EmptyBaseScope` in that situation exactly when the directory
itself has no devices. -/
theorem C5_zero_settings_scope (env : ScopeEnv) (query : Device → Bool)
    (h : env.settings = []) :
    base_qs env = env.devices ∧
    (get_job_filter env query = Except.error emptyBaseScopeMsg ↔ env.devices = []) := by
  refine ⟨base_qs_no_settings env h, ?_⟩
  rw [jobFilter_error_empty_iff, base_qs_no_settings env h]

def envEmptyDir : ScopeEnv := ⟨[], []⟩

/-- Witness for C5 (amended): with a device present the call does not fail
with the empty-scope message; with an empty directory it does. -/
theorem C5_zero_settings_scope_witness :
    (base_qs envNoSettings = envNoSettings.devices ∧
      (get_job_filter envNoSettings allQ = Except.error emptyBaseScopeMsg ↔
        envNoSettings.devices = [])) ∧
    (get_job_filter envEmptyDir allQ = Except.error emptyBaseScopeMsg ↔
      envEmptyDir.devices = []) :=
  ⟨C5_zero_settings_scope envNoSettings allQ rfl,
   (C5_zero_settings_scope envEmptyDir allQ rfl).2⟩

/-! ## Template Rendering Engine (`render_jinja_template`, `render_secrets`)

jinja2 is external: the outcome of a render call is a parameter of type
`Except JinjaErr String`, with one constructor per caught error class. -/

inductive JinjaErr where
  | undefinedErr (msg : String)
  | syntaxErr (lineno : Nat)
  | templateErr
deriving DecidableEq, Repr

/-- One recorded `logger.log_failure(...)` call, with the arguments as
written at the call site: `withObj` for `log_failure(obj, message)`,
`msgOnly` for the one-argument call `log_failure(error_msg)`. -/
inductive LogCall where
  | withObj (deviceId : Nat) (msg : String)
  | msgOnly (msg : String)
deriving DecidableEq, Repr

def undefTemplateMsg (template : String) : String :=
  "Jinja encountered and UndefinedError`, check the template for missing variable definitions.\nTemplate:\n"
    ++ template

def syntaxTemplateMsg (lineno : Nat) (template : String) : String :=
  "Jinja encountered a SyntaxError at line number " ++ toString lineno ++
    ",check the template for invalid Jinja syntax.\nTemplate:\n" ++ template

def genericTemplateMsg (template : String) : String :=
  "Jinja encountered an unexpected TemplateError; check the template for correctness\nTemplate:\n"
    ++ template

/-- Source: `render_jinja_template(obj, logger, template)`: result (`Except.error ()`
models the bare `raise NornirNautobotException`) paired with the list of
`log_failure` calls made.  `renderOutcome` is the outcome of the external
`render_jinja2(template_code=template, context=...)` call.  Note the
generic `TemplateError` branch logs with `logger.log_failure(error_msg)` —
one argument, no device — exactly as in the source. -/
def render_jinja_template (obj : Device) (renderOutcome : Except JinjaErr String)
    (template : String) : Except Unit String × List LogCall :=
  match renderOutcome with
  | Except.ok rendered => (Except.ok rendered, [])
  | Except.error (JinjaErr.undefinedErr _) =>
      (Except.error (), [LogCall.withObj obj.id (undefTemplateMsg template)])
  | Except.error (JinjaErr.syntaxErr lineno) =>
      (Except.error (), [LogCall.withObj obj.id (syntaxTemplateMsg lineno template)])
  | Except.error JinjaErr.templateErr =>
      (Except.error (), [LogCall.msgOnly (genericTemplateMsg template)])

/-! ## Push pipeline exceptions and `render_secrets` -/

inductive PipeExc where
  /-- Source: `RenderConfigToPushError` -/
  | renderToPush (msg : String)
  /-- any other Python exception (e.g. the `KeyError` of the settings-map
  subscript) -/
  | other (msg : String)
deriving DecidableEq, Repr

/-- Source: `models.GoldenConfig`: the per-device record holding the stored
intended configuration (absent/None modelled as the empty string, which is
equally falsy in Python). -/
structure GoldenConfigM where
  device : Device
  intended_config : String

/-- The external calls made by `render_secrets` after selecting the text to
render: `jinja_env.from_string` (whose `TemplateAssertionError` text is the
`Except.error` payload) and `template.render(device_data)` on the same
source text (the GraphQL device data is folded into this function). -/
structure RenderEnv where
  compile : String → Except String Unit
  render : String → Except JinjaErr String

def noReferenceMsg : String := "No reference Intended configuration to render secrets from"

/-- Source: `render_secrets(config_to_push, configs, request)`.  Control flow in
source order: pick `config_to_push or configs.intended_config`; raise
`RenderConfigToPushError` when both are falsy; `from_string` (a
`TemplateAssertionError` is returned as a message string); the settings-map
subscript (a missing key raises `KeyError`); `template.render`, whose three
jinja error classes are re-raised as `RenderConfigToPushError`. -/
def render_secrets (env : RenderEnv) (config_to_push : String)
    (configs : GoldenConfigM) : Except PipeExc String :=
  if (if config_to_push == "" then configs.intended_config else config_to_push) == "" then
    Except.error (PipeExc.renderToPush noReferenceMsg)
  else
    match env.compile (if config_to_push == "" then configs.intended_config else config_to_push) with
    | Except.error tae =>
        Except.ok ("Jinja encountered an TemplateAssertionError: '" ++ tae ++
          "'; check the template for correctness")
    | Except.ok _ =>
        match lookupSettings (get_device_to_settings_map [configs.device]) configs.device.id with
        | none => Except.error (PipeExc.other "KeyError")
        | some _ =>
            match env.render
              (if config_to_push == "" then configs.intended_config else config_to_push) with
            | Except.ok rendered => Except.ok rendered
            | Except.error (JinjaErr.undefinedErr msg) =>
                Except.error (PipeExc.renderToPush
                  ("Jinja encountered and UndefinedError: " ++ msg ++
                    ", check the template for missing variable definitions.\n"))
            | Except.error (JinjaErr.syntaxErr lineno) =>
                Except.error (PipeExc.renderToPush
                  ("Jinja encountered a SyntaxError at line number " ++ toString lineno ++
                    ",check the template for invalid Jinja syntax.\n"))
            | Except.error JinjaErr.templateErr =>
                Except.error (PipeExc.renderToPush
                  "Jinja encountered an unexpected TemplateError; check the template for correctness\n")

/-! ## Push-Artifact Pipeline (`get_config_to_push`) -/

/-- One registered pipeline callable: its `__name__` and its behavior once
`configs` and `request` are fixed. -/
structure PipeStage where
  name : String
  run : String → Except PipeExc String

/-- Source: `PLUGIN_CFG`: the two recognized keys; an absent or empty
(`falsy`) `config_push_subscribed` is the empty list. -/
structure PluginCfg where
  config_push_callable : List PipeStage
  config_push_subscribed : List String

def pushErrorMsg (msg : String) : String :=
  "Find an error rendering the configuration to push: " ++ msg

/-- Outcome of processing one subscribed name against the callables list:
the loop either finishes with an accumulator, executes the `return` of the
`except RenderConfigToPushError` handler, or lets another exception
propagate. -/
inductive NameRes where
  | done (acc : String)
  | earlyReturn (s : String)
  | exc (e : PipeExc)
deriving Repr

/-- The inner `for func in config_push_callable` loop for one
`func_name` — note it has no `break`: every callable whose `__name__`
matches runs. -/
def processName (name : String) (acc : String) : List PipeStage → NameRes
  | [] => NameRes.done acc
  | st :: rest =>
    if st.name == name then
      match st.run acc with
      | Except.ok out => processName name out rest
      | Except.error (PipeExc.renderToPush msg) => NameRes.earlyReturn (pushErrorMsg msg)
      | Except.error e => NameRes.exc e
    else
      processName name acc rest

/-- The outer `for func_name in config_push_subscribed` loop. -/
def runSubscribed (callables : List PipeStage) (acc : String) :
    List String → Except PipeExc String
  | [] => Except.ok acc
  | name :: rest =>
    match processName name acc callables with
    | NameRes.done acc2 => runSubscribed callables acc2 rest
    | NameRes.earlyReturn s => Except.ok s
    | NameRes.exc e => Except.error e

/-- The default subscription list: `["render_secrets"]`, overridden by a
truthy `PLUGIN_CFG["config_push_subscribed"]`. -/
def defaultSubscribed (cfg : PluginCfg) : List String :=
  if cfg.config_push_subscribed.isEmpty then ["render_secrets"]
  else cfg.config_push_subscribed

/-- The subscription list actually used: a truthy (non-empty)
`custom_subscribed` wins, otherwise the default. -/
def subscribedNames (cfg : PluginCfg) (custom_subscribed : Option (List String)) :
    List String :=
  match custom_subscribed with
  | some l => if l.isEmpty then defaultSubscribed cfg else l
  | none => defaultSubscribed cfg

/-- Source: `get_config_to_push(configs, request, custom_subscribed)`: the callables
are the built-in `render_secrets` (bound to `configs`/`request`) followed by
`PLUGIN_CFG.get("config_push_callable", [])`; `config_to_push` starts as
the empty string. -/
def get_config_to_push (env : RenderEnv) (configs : GoldenConfigM) (cfg : PluginCfg)
    (custom_subscribed : Option (List String)) : Except PipeExc String :=
  runSubscribed
    ({ name := "render_secrets", run := fun s => render_secrets env s configs } ::
      cfg.config_push_callable)
    "" (subscribedNames cfg custom_subscribed)

theorem processName_no_renderToPush (name acc : String) (callables : List PipeStage)
    (msg : String) : processName name acc callables ≠ NameRes.exc (PipeExc.renderToPush msg) := by
  induction callables generalizing acc with
  | nil => simp [processName]
  | cons st rest ih =>
    unfold processName
    by_cases hn : (st.name == name) = true
    · rw [if_pos hn]
      rcases st.run acc with e | out
      · rcases e with m | m <;> simp
      · exact ih out
    · rw [if_neg hn]
      exact ih acc

theorem runSubscribed_no_renderToPush (callables : List PipeStage) (acc : String)
    (names : List String) (msg : String) :
    runSubscribed callables acc names ≠ Except.error (PipeExc.renderToPush msg) := by
  induction names generalizing acc with
  | nil => simp [runSubscribed]
  | cons name rest ih =>
    unfold runSubscribed
    rcases hp : processName name acc callables with acc2 | s | e
    · exact ih acc2
    · simp
    · rcases e with m | m
      · exact absurd hp (processName_no_renderToPush name acc callables m)
      · simp

/-- C6: whenever a stage invoked by the pipeline raises
`RenderConfigToPushError`, `get_config_to_push` stops at once — the handler
returns the descriptive string, skipping every remaining subscribed name
and every remaining callable — and the pipeline never lets a
`RenderConfigToPushError` escape as an exception. -/
theorem C6_pipeline_catches_render_error :
    (∀ (env : RenderEnv) (configs : GoldenConfigM) (cfg : PluginCfg)
        (cs : Option (List String)) (msg : String),
      get_config_to_push env configs cfg cs ≠ Except.error (PipeExc.renderToPush msg)) ∧
    (∀ (st : PipeStage) (callables : List PipeStage) (name acc msg : String),
      st.name = name → st.run acc = Except.error (PipeExc.renderToPush msg) →
      processName name acc (st :: callables) = NameRes.earlyReturn (pushErrorMsg msg)) ∧
    (∀ (callables : List PipeStage) (name acc s : String) (rest : List String),
      processName name acc callables = NameRes.earlyReturn s →
      runSubscribed callables acc (name :: rest) = Except.ok s) := by
  refine ⟨?_, ?_, ?_⟩
  · intro env configs cfg cs msg
    exact runSubscribed_no_renderToPush _ "" _ msg
  · intro st callables name acc msg hname hrun
    unfold processName
    rw [if_pos (by simp [hname]), hrun]
  · intro callables name acc s rest hp
    unfold runSubscribed
    rw [hp]

/-- Pipeline witness objects: a failing stage and a trivial rendering
environment. -/
def stFail : PipeStage := ⟨"boom", fun _ => Except.error (PipeExc.renderToPush "bad")⟩

def envIdentity : RenderEnv := ⟨fun _ => Except.ok (), fun s => Except.ok s⟩

def configsW : GoldenConfigM := ⟨dW, "intended text"⟩

def cfgFail : PluginCfg := ⟨[stFail], []⟩

/-- Witness for C6 at concrete inputs. -/
theorem C6_pipeline_catches_render_error_witness :
    (get_config_to_push envIdentity configsW cfgFail (some ["boom"]) ≠
      Except.error (PipeExc.renderToPush "bad")) ∧
    processName "boom" "" [stFail] = NameRes.earlyReturn (pushErrorMsg "bad") ∧
    runSubscribed [stFail] "" ["boom", "next"] = Except.ok (pushErrorMsg "bad") :=
  ⟨C6_pipeline_catches_render_error.1 envIdentity configsW cfgFail (some ["boom"]) "bad",
   C6_pipeline_catches_render_error.2.1 stFail [] "boom" "" "bad" rfl rfl,
   C6_pipeline_catches_render_error.2.2 [stFail] "boom" "" (pushErrorMsg "bad") ["next"] rfl⟩

/-- Two registered callables sharing the `__name__` "dup". -/
def stA : PipeStage := ⟨"dup", fun s => Except.ok (s ++ "a")⟩

def stB : PipeStage := ⟨"dup", fun s => Except.ok (s ++ "b")⟩

def cfgDup : PluginCfg := ⟨[stA, stB], []⟩

/-- C7, counterexample: with two registered callables both named "dup", the
pipeline runs BOTH (the inner loop has no `break`), producing "ab"; if only
the first matching stage ran exactly once from the initial empty string,
the result would be "a". -/
theorem C7_first_match_counterexample :
    get_config_to_push envIdentity configsW cfgDup (some ["dup"]) = Except.ok "ab" ∧
    stA.run "" = Except.ok "a" ∧
    ("ab" : String) ≠ "a" :=
  ⟨rfl, rfl, by decide⟩

/-- C7 (amended): for each name in the ordered stage-name list, every
registered callable whose name matches is invoked, in registration order,
each receiving the previous output as `current_output`; the initial
`current_output` is the empty string; a name with no matching callable is
silently skipped, leaving the accumulator unchanged and raising nothing;
with pairwise-distinct registered names this means the unique matching
stage runs exactly once. -/
theorem C7_stage_dispatch :
    (∀ (env : RenderEnv) (configs : GoldenConfigM) (cfg : PluginCfg)
        (cs : Option (List String)),
      get_config_to_push env configs cfg cs =
        runSubscribed
          ({ name := "render_secrets", run := fun s => render_secrets env s configs } ::
            cfg.config_push_callable)
          "" (subscribedNames cfg cs)) ∧
    (∀ (name acc : String) (callables : List PipeStage),
      (∀ st ∈ callables, st.name ≠ name) →
      processName name acc callables = NameRes.done acc) ∧
    (∀ (st : PipeStage) (callables : List PipeStage) (name acc : String),
      st.name ≠ name →
      processName name acc (st :: callables) = processName name acc callables) ∧
    (∀ (st : PipeStage) (callables : List PipeStage) (name acc out : String),
      st.name = name → st.run acc = Except.ok out →
      processName name acc (st :: callables) = processName name out callables) ∧
    (∀ (callables : List PipeStage) (name acc : String) (rest : List String),
      processName name acc callables = NameRes.done acc →
      runSubscribed callables acc (name :: rest) = runSubscribed callables acc rest) := by
  refine ⟨fun _ _ _ _ => rfl, ?_, ?_, ?_, ?_⟩
  · intro name acc callables hnone
    induction callables with
    | nil => rfl
    | cons st rest ih =>
      unfold processName
      rw [if_neg (by simp [hnone st (List.mem_cons_self st rest)])]
      exact ih (fun s hs => hnone s (List.mem_cons_of_mem st hs))
  · intro st callables name acc hne
    unfold processName
    rw [if_neg (by simp [hne])]
    cases callables <;> rfl
  · intro st callables name acc out hname hrun
    unfold processName
    rw [if_pos (by simp [hname]), hrun]
    cases callables <;> rfl
  · intro callables name acc rest hp
    unfold runSubscribed
    rw [hp]
    cases rest <;> rfl

/-- Witness for C7 (amended) at concrete inputs: the unmatched name "ghost"
is skipped, a matched stage feeds its output forward, and the pipeline
equals its loop unfolding. -/
theorem C7_stage_dispatch_witness :
    get_config_to_push envIdentity configsW cfgDup (some ["ghost"]) =
      runSubscribed
        ({ name := "render_secrets", run := fun s => render_secrets envIdentity s configsW } ::
          cfgDup.config_push_callable)
        "" (subscribedNames cfgDup (some ["ghost"])) ∧
    processName "ghost" "z" [stA] = NameRes.done "z" ∧
    processName "dup" "z" (stB :: [stA]) = processName "dup" "zb" [stA] ∧
    runSubscribed [stA] "z" ["ghost", "dup"] = runSubscribed [stA] "z" ["dup"] :=
  ⟨C7_stage_dispatch.1 envIdentity configsW cfgDup (some ["ghost"]),
   C7_stage_dispatch.2.1 "ghost" "z" [stA] (by decide),
   C7_stage_dispatch.2.2.2.1 stB [stA] "dup" "z" "zb" rfl rfl,
   C7_stage_dispatch.2.2.2.2 [stA] "ghost" "z" ["dup"]
     (C7_stage_dispatch.2.1 "ghost" "z" [stA] (by decide))⟩

/-- C8: with an empty `current_output` the `render_secrets` stage renders
from the stored intended configuration (the call behaves exactly as if that
text had been passed explicitly); when both are empty it raises
`RenderConfigToPushError` before any compilation, settings lookup or
rendering — the result does not depend on the rendering environment at
all. -/
theorem C8_render_secrets_fallback (env : RenderEnv) (configs : GoldenConfigM) :
    (configs.intended_config ≠ "" →
      render_secrets env "" configs = render_secrets env configs.intended_config configs) ∧
    (configs.intended_config = "" →
      render_secrets env "" configs =
        Except.error (PipeExc.renderToPush noReferenceMsg)) := by
  constructor
  · intro hne
    have hsel : (if ("" : String) == "" then configs.intended_config else "") =
        configs.intended_config := rfl
    have hic : (configs.intended_config == "") = false := by
      cases hbe : configs.intended_config == ""
      · rfl
      · exact absurd (eq_of_beq hbe) hne
    unfold render_secrets
    rw [hsel, hic]
    simp
    rw [if_neg hne]
  · intro hz
    unfold render_secrets
    rw [hz]
    rfl

/-- Witness for C8: a config with stored intended text falls back to it; a
config with neither input fails with the no-reference error. -/
def configsNoIntended : GoldenConfigM := ⟨dW, ""⟩

theorem C8_render_secrets_fallback_witness :
    (render_secrets envIdentity "" configsW =
      render_secrets envIdentity configsW.intended_config configsW) ∧
    (render_secrets envIdentity "" configsNoIntended =
      Except.error (PipeExc.renderToPush noReferenceMsg)) :=
  ⟨(C8_render_secrets_fallback envIdentity configsW).1 (by decide),
   (C8_render_secrets_fallback envIdentity configsNoIntended).2 rfl⟩

/-- C9: evaluating the embedded `render_jinja_template` at a generic
`TemplateError` shows the divergence — the logger is called with the
message only, not against the device (`LogCall.msgOnly`), unlike the
undefined-variable and syntax branches, which log `LogCall.withObj` with
the device before raising. -/
theorem C9_generic_template_error_log :
    (render_jinja_template dPlain (Except.error JinjaErr.templateErr) "tmpl").2 =
      [LogCall.msgOnly (genericTemplateMsg "tmpl")] ∧
    (render_jinja_template dPlain (Except.error JinjaErr.templateErr) "tmpl").1 =
      Except.error () ∧
    (render_jinja_template dPlain (Except.error (JinjaErr.undefinedErr "u")) "tmpl").2 =
      [LogCall.withObj dPlain.id (undefTemplateMsg "tmpl")] ∧
    (render_jinja_template dPlain (Except.error (JinjaErr.syntaxErr 3)) "tmpl").2 =
      [LogCall.withObj dPlain.id (syntaxTemplateMsg 3 "tmpl")] ∧
    LogCall.msgOnly (genericTemplateMsg "tmpl") ≠
      LogCall.withObj dPlain.id (genericTemplateMsg "tmpl") :=
  ⟨rfl, rfl, rfl, rfl, by simp⟩

end GoldenCfg
